import Mathlib

/-! Doris backend: `HDFSWriter` and `PrimaryKeyBloomFilterIndexWriterImpl`

A shallow embedding of

* `be/src/io/hdfs_writer.cpp` (constructor, `open`, `write`, `close`, `_connect`,
  `_parse_properties`), and
* `be/src/olap/rowset/segment_v2/bloom_filter_index_writer.h`
  (`PrimaryKeyBloomFilterIndexWriterImpl`, its constructor and `add_nulls`).

The libhdfs client is an external collaborator.  Every client function is a field of
`HdfsEnv` that gives the value the client returns for the arguments it is called with, and
every member function of the writer returns, next to its status and the new object state, the
list of client calls it made, in program order.  Pointers are `Option Nat` (`none` is
`nullptr`), a C++ `int` is an `Int`, `std::string` is a list of characters.  Logging
statements have no effect on the state or on the result and are left out.
-/

namespace doris

/-! ## Strings -/

/-- A `std::string`, as the sequence of its characters. -/
abbrev std_string := List Char

/-- Search of `std::string::find(pat)` from the head of the remaining text `s`, which starts
at index `pos` of the whole string: the first index at which `pat` occurs, `none` for `npos`. -/
def find_from (pat : std_string) : std_string → Nat → Option Nat
  | [], pos => if pat = [] then some pos else none
  | c :: cs, pos => if pat.isPrefixOf (c :: cs) then some pos else find_from pat cs (pos + 1)

/-- The call `s.find(pat)`: the index of the first occurrence of `pat` in `s`, `none` for `npos`. -/
def find (s pat : std_string) : Option Nat :=
  find_from pat s 0

/-- The call `s.substr(pos)`: the characters of `s` from index `pos` on.  The C++ call throws
when `pos > s.size()`; `find_le_size` below shows that `open` never calls it so. -/
def substr (s : std_string) (pos : Nat) : std_string :=
  s.drop pos

/-! ## Status -/

/-- The status codes that `hdfs_writer.cpp` produces itself (`OK`, `INTERNAL_ERROR`,
`ALREADY_EXIST`); `OTHER n` stands for any further code of `common/status.h`, which a status
handed through from `createHDFSBuilder` may carry. -/
inductive ErrorCode where
  | OK
  | INTERNAL_ERROR
  | ALREADY_EXIST
  | OTHER (n : Nat)
  deriving DecidableEq, Repr

/-- A `doris::Status`: a code and a message. -/
structure Status where
  code : ErrorCode
  msg : std_string
  deriving DecidableEq, Repr

namespace Status

/-- The status `Status::OK()`. -/
def OK : Status := ⟨ErrorCode.OK, []⟩

/-- The status `Status::InternalError(msg)`. -/
def InternalError (msg : std_string) : Status := ⟨ErrorCode.INTERNAL_ERROR, msg⟩

/-- The status `Status::AlreadyExist(msg)`. -/
def AlreadyExist (msg : std_string) : Status := ⟨ErrorCode.ALREADY_EXIST, msg⟩

/-- The test `Status::ok()`. -/
def ok (s : Status) : Bool := decide (s.code = ErrorCode.OK)

end Status

/-! ## The HDFS client -/

/-- A C++ `int32_t` (`tSize` of libhdfs): an integer in the 32-bit signed range. -/
structure int32_t where
  val : Int
  lo : -2147483648 ≤ val
  hi : val ≤ 2147483647

/-- Conversion of a `size_t` to `tSize` at the call of `hdfsWrite`: reduction modulo `2^32`
into the signed range. -/
def to_tSize (n : Nat) : Int :=
  if (n : Int) % 4294967296 < 2147483648 then (n : Int) % 4294967296
  else (n : Int) % 4294967296 - 4294967296

/-- The cast `(unsigned int)result` of an `int32_t`: reduction modulo `2^32`. -/
def to_unsigned_int (r : int32_t) : Nat :=
  (r.val % 4294967296).toNat

/-- A property map `std::map<std::string, std::string>`, as its entries. -/
abbrev Properties := List (std_string × std_string)

/-- What the environment of the writer answers.  The client functions are given by the value
they return for their arguments; `createHDFSBuilder`, `hdfsBuilderConnect` depend on the
property map the builder is made from; within one call of a member function the client
answers the same arguments the same way.  `parent_path` is
`std::filesystem::path(p).parent_path().string()`, `localhost` is
`BackendOptions::get_localhost()`, `hdfs_error` is `io::hdfs_error()`, and `FS_KEY` is the
property key of the namenode address. -/
structure HdfsEnv where
  FS_KEY : std_string
  createHDFSBuilder : Properties → Status
  hdfsBuilderConnect : Properties → Option Nat
  hdfsExists : Option Nat → std_string → Int
  hdfsCreateDirectory : Option Nat → std_string → Int
  hdfsOpenFile : Option Nat → std_string → Option Nat
  hdfsWrite : Option Nat → Option Nat → List Nat → Int → int32_t
  hdfsFlush : Option Nat → Option Nat → Int
  parent_path : std_string → std_string
  localhost : std_string
  hdfs_error : std_string

/-- A call of a libhdfs client function, with its arguments. -/
inductive HdfsCall where
  | hdfsBuilderConnect (props : Properties)
  | hdfsExists (fs : Option Nat) (path : std_string)
  | hdfsCreateDirectory (fs : Option Nat) (path : std_string)
  | hdfsOpenFile (fs : Option Nat) (path : std_string)
  | hdfsWrite (fs file : Option Nat) (buf : List Nat) (length : Int)
  | hdfsFlush (fs file : Option Nat)
  | hdfsCloseFile (fs file : Option Nat)
  | hdfsDisconnect (fs : Option Nat)
  deriving DecidableEq, Repr

namespace HdfsCall

/-- Whether the call is `hdfsFlush`. -/
def isFlush : HdfsCall → Bool
  | hdfsFlush _ _ => true
  | _ => false

/-- Whether the call is `hdfsCloseFile`. -/
def isCloseFile : HdfsCall → Bool
  | hdfsCloseFile _ _ => true
  | _ => false

/-- Whether the call is `hdfsDisconnect`. -/
def isDisconnect : HdfsCall → Bool
  | hdfsDisconnect _ => true
  | _ => false

/-- Whether the call is `hdfsWrite`. -/
def isWrite : HdfsCall → Bool
  | hdfsWrite _ _ _ _ => true
  | _ => false

/-- Whether the call is `hdfsCreateDirectory`. -/
def isCreateDirectory : HdfsCall → Bool
  | hdfsCreateDirectory _ _ => true
  | _ => false

/-- Whether the call is `hdfsOpenFile`. -/
def isOpenFile : HdfsCall → Bool
  | hdfsOpenFile _ _ => true
  | _ => false

end HdfsCall

/-! ## `HDFSWriter` -/

/-- The data members of an `HDFSWriter`. -/
structure HDFSWriter where
  _properties : Properties
  _namenode : std_string
  _path : std_string
  _hdfs_fs : Option Nat
  _hdfs_file : Option Nat
  _closed : Bool
  deriving DecidableEq, Repr

/-- What a member function leaves behind: the status it returns, the object state, and the
client calls it made, first call first. -/
structure Outcome where
  status : Status
  writer : HDFSWriter
  calls : List HdfsCall
  deriving DecidableEq, Repr

namespace HDFSWriter

/-- The function `HDFSWriter::_parse_properties`: takes the namenode from the entry of
`FS_KEY`, when there is one. -/
def _parse_properties (env : HdfsEnv) (w : HDFSWriter) (prop : Properties) : HDFSWriter :=
  match prop.lookup env.FS_KEY with
  | some v => { w with _namenode := v }
  | none => w

/-- The constructor `HDFSWriter::HDFSWriter(properties, path)`.  The members `_namenode`,
`_hdfs_file` and `_closed` are not in its initializer list; they take the default of their
declaration in `io/hdfs_writer.h` (not among the sources): the empty string, `nullptr` and
`false`, the values `open` and `close` rely on. -/
def new (env : HdfsEnv) (properties : Properties) (path : std_string) : HDFSWriter :=
  _parse_properties env
    { _properties := properties, _namenode := [], _path := path, _hdfs_fs := none,
      _hdfs_file := none, _closed := false }
    properties

/-- The function `HDFSWriter::_connect`. -/
def _connect (env : HdfsEnv) (w : HDFSWriter) : Outcome :=
  let st := env.createHDFSBuilder w._properties
  if st.ok = false then
    ⟨st, w, []⟩
  else
    let w1 := { w with _hdfs_fs := env.hdfsBuilderConnect w._properties }
    let calls := [HdfsCall.hdfsBuilderConnect w._properties]
    if w1._hdfs_fs = none then
      ⟨Status.InternalError ("connect to hdfs failed. namenode address:".toList ++ w1._namenode
          ++ ", error ".toList ++ env.hdfs_error), w1, calls⟩
    else
      ⟨Status.OK, w1, calls⟩

/-- The path rewrite at the head of `HDFSWriter::open`: when `_namenode` occurs in `_path`,
`_path` loses its first `_namenode.size()` characters. -/
def rewrite_path (namenode path : std_string) : std_string :=
  if find path namenode ≠ none then substr path namenode.length else path

/-- The tail of `HDFSWriter::open` from the comment `// open file` on: `hdfsOpenFile` on
`_path`, after the client calls `calls` made so far. -/
def open_file (env : HdfsEnv) (w : HDFSWriter) (calls : List HdfsCall) : Outcome :=
  let w1 := { w with _hdfs_file := env.hdfsOpenFile w._hdfs_fs w._path }
  let calls1 := calls ++ [HdfsCall.hdfsOpenFile w._hdfs_fs w._path]
  if w1._hdfs_file = none then
    ⟨Status.InternalError ("open file failed. ".toList ++ "(BE: ".toList
        ++ env.localhost ++ ")".toList ++ " namenode:".toList ++ w1._namenode
        ++ " path:".toList ++ w1._path ++ ", err: ".toList ++ env.hdfs_error),
      w1, calls1⟩
  else
    ⟨Status.OK, w1, calls1⟩

/-- The function `HDFSWriter::open`. -/
def «open» (env : HdfsEnv) (w : HDFSWriter) : Outcome :=
  if w._namenode = [] then
    ⟨Status.InternalError "hdfs properties is incorrect".toList, w, []⟩
  else
    let w1 := { w with _path := rewrite_path w._namenode w._path }
    let c := _connect env w1
    if c.status.ok = false then
      c
    else
      let w2 := c.writer
      if w2._hdfs_fs = none then
        ⟨Status.InternalError "HDFS writer open without client".toList, w2, c.calls⟩
      else
        let calls1 := c.calls ++ [HdfsCall.hdfsExists w2._hdfs_fs w2._path]
        if env.hdfsExists w2._hdfs_fs w2._path = 0 then
          ⟨Status.AlreadyExist (w2._path ++ " already exists.".toList), w2, calls1⟩
        else
          let hdfs_dir := env.parent_path w2._path
          let calls2 := calls1 ++ [HdfsCall.hdfsExists w2._hdfs_fs hdfs_dir]
          if env.hdfsExists w2._hdfs_fs hdfs_dir ≠ 0 then
            let calls3 := calls2 ++ [HdfsCall.hdfsCreateDirectory w2._hdfs_fs hdfs_dir]
            if env.hdfsCreateDirectory w2._hdfs_fs hdfs_dir ≠ 0 then
              ⟨Status.InternalError ("create dir failed. ".toList ++ "(BE: ".toList
                  ++ env.localhost ++ ")".toList ++ " namenode: ".toList ++ w2._namenode
                  ++ " path: ".toList ++ hdfs_dir ++ ", err: ".toList ++ env.hdfs_error),
                w2, calls3⟩
            else
              open_file env w2 calls3
          else
            open_file env w2 calls2

/-- What `HDFSWriter::write` leaves behind: the outcome and the value of `*written_len`. -/
structure WriteOutcome where
  status : Status
  writer : HDFSWriter
  calls : List HdfsCall
  written_len : Nat

/-- The function `HDFSWriter::write(buf, buf_len, written_len)`; the argument `written_len`
is the value of `*written_len` before the call. -/
def write (env : HdfsEnv) (w : HDFSWriter) (buf : List Nat) (buf_len : Nat)
    (written_len : Nat) : WriteOutcome :=
  if buf_len = 0 then
    ⟨Status.OK, w, [], 0⟩
  else
    let result := env.hdfsWrite w._hdfs_fs w._hdfs_file buf (to_tSize buf_len)
    let calls := [HdfsCall.hdfsWrite w._hdfs_fs w._hdfs_file buf (to_tSize buf_len)]
    if result.val < 0 then
      ⟨Status.InternalError ("write file failed. ".toList ++ "(BE: ".toList
          ++ env.localhost ++ ")".toList ++ "namenode:".toList ++ w._namenode
          ++ " path:".toList ++ w._path ++ ", err: ".toList ++ env.hdfs_error),
        w, calls, written_len⟩
    else
      ⟨Status.OK, w, calls, to_unsigned_int result⟩

/-- The function `HDFSWriter::close`. -/
def close (env : HdfsEnv) (w : HDFSWriter) : Outcome :=
  if w._closed then
    ⟨Status.OK, w, []⟩
  else
    let w1 := { w with _closed := true }
    if w1._hdfs_fs = none then
      ⟨Status.OK, w1, []⟩
    else if w1._hdfs_file = none then
      ⟨Status.OK, w1, [HdfsCall.hdfsDisconnect w1._hdfs_fs]⟩
    else
      let result := env.hdfsFlush w1._hdfs_fs w1._hdfs_file
      let calls := [HdfsCall.hdfsFlush w1._hdfs_fs w1._hdfs_file]
      if result = -1 then
        ⟨Status.InternalError ("failed to flush hdfs file. ".toList ++ "(BE: ".toList
            ++ env.localhost ++ ")".toList ++ "namenode:".toList ++ w1._namenode
            ++ " path:".toList ++ w1._path ++ ", err: ".toList ++ env.hdfs_error),
          w1, calls⟩
      else
        ⟨Status.OK, { w1 with _hdfs_file := none, _hdfs_fs := none },
          calls ++ [HdfsCall.hdfsCloseFile w1._hdfs_fs w1._hdfs_file,
            HdfsCall.hdfsDisconnect w1._hdfs_fs]⟩

/-- A run of `close()` calls, one after the other on the same object (the destructor
`HDFSWriter::~HDFSWriter` makes the last one); `envs` gives the environment of each call. -/
def close_seq : List HdfsEnv → HDFSWriter → List Status × HDFSWriter × List HdfsCall
  | [], w => ([], w, [])
  | env :: envs, w =>
    let o := close env w
    let r := close_seq envs o.writer
    (o.status :: r.1, r.2.1, o.calls ++ r.2.2)

/-- The object state in which `open` connects: `_path` rewritten. -/
def rewritten (w : HDFSWriter) : HDFSWriter :=
  { w with _path := rewrite_path w._namenode w._path }

/-- The message of a failed connection. -/
def connect_failed_msg (env : HdfsEnv) (w : HDFSWriter) : std_string :=
  "connect to hdfs failed. namenode address:".toList ++ w._namenode
    ++ ", error ".toList ++ env.hdfs_error

/-- The message of a failed directory creation. -/
def create_dir_failed_msg (env : HdfsEnv) (w : HDFSWriter) : std_string :=
  "create dir failed. ".toList ++ "(BE: ".toList ++ env.localhost ++ ")".toList
    ++ " namenode: ".toList ++ w._namenode ++ " path: ".toList
    ++ env.parent_path (rewrite_path w._namenode w._path) ++ ", err: ".toList ++ env.hdfs_error

/-- The number of `hdfsDisconnect` calls among the calls. -/
def disconnects (calls : List HdfsCall) : Nat :=
  (calls.filter HdfsCall.isDisconnect).length

end HDFSWriter

/-! ## `PrimaryKeyBloomFilterIndexWriterImpl` -/

namespace segment_v2

/-- Modelled from the spec: `BloomFilterOptions`, which the header only declares
(`struct BloomFilterOptions;`).  The spec gives it the options
`target_false_positive_rate`, `expected_distinct_per_block` and `rows_per_block`. -/
structure BloomFilterOptions where
  target_false_positive_rate : ℚ
  expected_distinct_per_block : Nat
  rows_per_block : Nat
  deriving DecidableEq

/-- A `Slice` (`util/slice.h`): a view of bytes, given by the bytes it views. -/
abbrev Slice := List Nat

/-- Modelled from the spec: `BloomFilter` (`olap/rowset/segment_v2/bloom_filter.h`), one
completed filter block: a serialized byte buffer. -/
structure BloomFilter where
  bytes : List Nat
  deriving DecidableEq

/-- Modelled from the spec: `MemPool` (`runtime/mem_pool.h`), the arena that owns the bytes
of the buffered values. -/
structure MemPool where
  chunks : List (List Nat)
  deriving DecidableEq

/-- The data members of a `PrimaryKeyBloomFilterIndexWriterImpl`; `_type_info` is the
address the pointer holds. -/
structure PrimaryKeyBloomFilterIndexWriterImpl where
  _bf_options : BloomFilterOptions
  _type_info : Nat
  _pool : MemPool
  _has_null : Bool
  _bf_buffer_size : Nat
  _values : List Slice
  _bfs : List BloomFilter
  deriving DecidableEq

/-- The error kinds of the writer contract. -/
inductive WriterError where
  | InvalidConfig
  | InvalidState
  | SinkFailure
  deriving DecidableEq, Repr

namespace PrimaryKeyBloomFilterIndexWriterImpl

/-- The constructor `PrimaryKeyBloomFilterIndexWriterImpl(bf_options, type_info)`: no null
seen, buffer size zero, a fresh pool, no buffered value and no filter. -/
def new (bf_options : BloomFilterOptions) (type_info : Nat) :
    PrimaryKeyBloomFilterIndexWriterImpl :=
  { _bf_options := bf_options, _type_info := type_info, _pool := ⟨[]⟩, _has_null := false,
    _bf_buffer_size := 0, _values := [], _bfs := [] }

/-- The function `add_nulls(uint32_t count)`, whose body is `_has_null = true;`. -/
def add_nulls (w : PrimaryKeyBloomFilterIndexWriterImpl) (_count : Nat) :
    PrimaryKeyBloomFilterIndexWriterImpl :=
  { w with _has_null := true }

/-- What a caller of `add_nulls` observes.  The function is declared `void` and its body has
no `throw`: every call returns normally, with the new state. -/
def add_nulls_call (w : PrimaryKeyBloomFilterIndexWriterImpl) (count : Nat) :
    Except WriterError PrimaryKeyBloomFilterIndexWriterImpl :=
  Except.ok (add_nulls w count)

/-- The number of completed filter blocks, `_bfs.size()`. -/
def completed_blocks (w : PrimaryKeyBloomFilterIndexWriterImpl) : Nat :=
  w._bfs.length

end PrimaryKeyBloomFilterIndexWriterImpl

end segment_v2

/-! ## Sample environments and objects -/

namespace sample

/-- A parent-path function for the sample environments: the text before the last `/`, and
`/` itself for a file directly under the root. -/
def parent_path (p : std_string) : std_string :=
  let d := ((p.reverse.dropWhile (fun c => c != '/')).drop 1).reverse
  if d = [] ∧ p.head? = some '/' then ['/'] else d

/-- A client on which every call succeeds: the builder is made, the connection gives the
handle `1`, no path exists yet, directories are created, files open with the handle `2`,
a write stores `min length 4096` bytes and a flush returns `0`. -/
def env_ok : HdfsEnv where
  FS_KEY := "fs.defaultFS".toList
  createHDFSBuilder := fun _ => Status.OK
  hdfsBuilderConnect := fun _ => some 1
  hdfsExists := fun _ _ => -1
  hdfsCreateDirectory := fun _ _ => 0
  hdfsOpenFile := fun _ _ => some 2
  hdfsWrite := fun _ _ _ len =>
    ⟨max 0 (min len 4096), le_trans (by decide) (le_max_left _ _),
      max_le (by decide) (le_trans (min_le_right _ _) (by decide))⟩
  hdfsFlush := fun _ _ => 0
  parent_path := parent_path
  localhost := "10.0.0.7".toList
  hdfs_error := "(22), Invalid argument".toList

/-- The client of `env_ok`, except that every flush fails (`hdfsFlush` returns `-1`). -/
def env_flush_fails : HdfsEnv :=
  { env_ok with hdfsFlush := fun _ _ => -1 }

/-- The client of `env_ok`, except that the connection fails (`hdfsBuilderConnect` returns
`nullptr`). -/
def env_connect_fails : HdfsEnv :=
  { env_ok with hdfsBuilderConnect := fun _ => none }

/-- The client of `env_ok`, except that no directory can be created. -/
def env_mkdir_fails : HdfsEnv :=
  { env_ok with hdfsCreateDirectory := fun _ _ => -1 }

/-- The client of `env_ok`, except that every path exists already. -/
def env_exists : HdfsEnv :=
  { env_ok with hdfsExists := fun _ _ => 0 }

/-- The client of `env_ok`, except that every write fails (`hdfsWrite` returns `-1`). -/
def env_write_fails : HdfsEnv :=
  { env_ok with hdfsWrite := fun _ _ _ _ => ⟨-1, by decide, by decide⟩ }

/-- The client of `env_ok`, except that `createHDFSBuilder` fails, with a status of the
code `ALREADY_EXIST`. -/
def env_builder_already_exist : HdfsEnv :=
  { env_ok with
    createHDFSBuilder := fun _ => Status.AlreadyExist "hdfs builder already exists".toList }

/-- The property map with the namenode `hdfs://nn:8020`. -/
def props : Properties :=
  [("fs.defaultFS".toList, "hdfs://nn:8020".toList)]

/-- A writer for `hdfs://nn:8020/out/part-0`, as constructed. -/
def fresh : HDFSWriter :=
  HDFSWriter.new env_ok props "hdfs://nn:8020/out/part-0".toList

/-- A writer that holds the connection `1` and the open file `2`. -/
def opened : HDFSWriter :=
  { _properties := props, _namenode := "hdfs://nn:8020".toList, _path := "/out/part-0".toList,
    _hdfs_fs := some 1, _hdfs_file := some 2, _closed := false }

/-- A writer whose path holds the namenode address inside, not at its head. -/
def nested : HDFSWriter :=
  HDFSWriter.new env_ok props "/backup/hdfs://nn:8020/f".toList

/-- Filter options with five rows to the block. -/
def bf_options : segment_v2.BloomFilterOptions :=
  { target_false_positive_rate := 1 / 20, expected_distinct_per_block := 10,
    rows_per_block := 5 }

/-- An index writer as constructed: nothing added yet, no row seen in the block. -/
def bf_fresh : segment_v2.PrimaryKeyBloomFilterIndexWriterImpl :=
  segment_v2.PrimaryKeyBloomFilterIndexWriterImpl.new bf_options 0

/-- An index writer as it is once its blocks are materialized and written out: two
completed filters, no buffered value, no null in the current block. -/
def bf_finished : segment_v2.PrimaryKeyBloomFilterIndexWriterImpl :=
  { _bf_options := bf_options, _type_info := 0, _pool := ⟨[[10], [20], [30]]⟩,
    _has_null := false, _bf_buffer_size := 0, _values := [],
    _bfs := [⟨[1, 2, 3, 4]⟩, ⟨[5, 6, 7, 8]⟩] }

end sample

/-! ## Lemmas on `close` -/

namespace HDFSWriter

/-- After any `close()` the object is marked closed. -/
theorem close_sets_closed (env : HdfsEnv) (w : HDFSWriter) :
    (close env w).writer._closed = true := by
  unfold close
  by_cases hc : w._closed = true
  · simp [hc]
  · by_cases hfs : w._hdfs_fs = none
    · simp [hc, hfs]
    · by_cases hfile : w._hdfs_file = none
      · simp [hc, hfs, hfile]
      · by_cases hr : env.hdfsFlush w._hdfs_fs w._hdfs_file = -1
        · simp [hc, hfs, hfile, hr]
        · simp [hc, hfs, hfile, hr]

/-- A `close()` on a closed object returns OK, calls nothing and changes nothing. -/
theorem close_of_closed (env : HdfsEnv) (w : HDFSWriter) (h : w._closed = true) :
    close env w = ⟨Status.OK, w, []⟩ := by
  simp [close, h]

/-- A run of `close()` calls on a closed object: every call returns OK, none calls the
client, and the object stays as it is. -/
theorem close_seq_of_closed (envs : List HdfsEnv) (w : HDFSWriter) (h : w._closed = true) :
    close_seq envs w = (List.replicate envs.length Status.OK, w, []) := by
  induction envs with
  | nil => rfl
  | cons env envs ih =>
    simp [close_seq, close_of_closed env w h, ih, List.replicate_succ]

/-- The ways to cut a list of three calls at one of its calls. -/
theorem split_three {a b c e : HdfsCall} {pre post : List HdfsCall}
    (h : [a, b, c] = pre ++ e :: post) :
    (pre = [] ∧ e = a) ∨ (pre = [a] ∧ e = b) ∨ (pre = [a, b] ∧ e = c) := by
  rcases pre with _ | ⟨x, _ | ⟨y, _ | ⟨z, pre⟩⟩⟩ <;> simp at h
  · exact Or.inl ⟨rfl, h.1.symm⟩
  · exact Or.inr (Or.inl ⟨by rw [h.1], h.2.1.symm⟩)
  · exact Or.inr (Or.inr ⟨by rw [h.1, h.2.1], h.2.2.1.symm⟩)

end HDFSWriter

/-! ## Claims on `HDFSWriter::close` -/

namespace HDFSWriter

/-- C1: `close` is idempotent.  Once a `close()` call has returned OK, every later `close()`
call (in any run of further calls, whatever the client would answer) returns OK, makes no
client call, and leaves the object state unchanged. -/
theorem close_idempotent (env : HdfsEnv) (w : HDFSWriter) (envs : List HdfsEnv)
    (h : (close env w).status = Status.OK) :
    close_seq envs (close env w).writer
      = (List.replicate envs.length Status.OK, (close env w).writer, []) :=
  have _ := h
  close_seq_of_closed envs (close env w).writer (close_sets_closed env w)

/-- C1, at a writer with an open file whose flush succeeds: the first `close()` returns OK
with three client calls, and three further calls return OK with none. -/
theorem close_idempotent_witness :
    (close sample.env_ok sample.opened).status = Status.OK
    ∧ (close sample.env_ok sample.opened).calls.length = 3
    ∧ close_seq [sample.env_ok, sample.env_flush_fails, sample.env_ok]
          (close sample.env_ok sample.opened).writer
        = ([Status.OK, Status.OK, Status.OK], (close sample.env_ok sample.opened).writer, []) :=
  ⟨by decide, by decide,
    close_idempotent sample.env_ok sample.opened
      [sample.env_ok, sample.env_flush_fails, sample.env_ok] (by decide)⟩

/-- C2: `close` flushes before it releases.  On a writer with an open file, every
`hdfsCloseFile` or `hdfsDisconnect` call that `close()` makes comes after a call of
`hdfsFlush` on that file, and that flush did not fail (it did not return `-1`). -/
theorem close_flushes_before_release (env : HdfsEnv) (w : HDFSWriter) (file : Nat)
    (hfile : w._hdfs_file = some file) (pre post : List HdfsCall) (e : HdfsCall)
    (hsplit : (close env w).calls = pre ++ e :: post)
    (he : e.isCloseFile = true ∨ e.isDisconnect = true) :
    HdfsCall.hdfsFlush w._hdfs_fs (some file) ∈ pre
      ∧ env.hdfsFlush w._hdfs_fs (some file) ≠ -1 := by
  unfold close at hsplit
  by_cases hc : w._closed = true
  · simp [hc] at hsplit
  · by_cases hfs : w._hdfs_fs = none
    · simp [hc, hfs] at hsplit
    · by_cases hr : env.hdfsFlush w._hdfs_fs (some file) = -1
      · simp [hc, hfs, hfile, hr] at hsplit
        rcases pre with _ | ⟨x, pre⟩
        · simp at hsplit
          rw [← hsplit.1] at he
          simp [HdfsCall.isCloseFile, HdfsCall.isDisconnect] at he
        · simp at hsplit
      · simp [hc, hfs, hfile, hr] at hsplit
        refine ⟨?_, hr⟩
        rcases split_three hsplit with ⟨_, h2⟩ | ⟨h1, _⟩ | ⟨h1, _⟩
        · rw [h2] at he
          simp [HdfsCall.isCloseFile, HdfsCall.isDisconnect] at he
        · simp [h1]
        · simp [h1]

/-- C2, at a writer with the open file `2` whose flush succeeds: the `hdfsDisconnect` call
is the third call of `close()`, and the flush of file `2` is before it. -/
theorem close_flushes_before_release_witness :
    sample.opened._hdfs_file = some 2
    ∧ (close sample.env_ok sample.opened).calls
        = [HdfsCall.hdfsFlush (some 1) (some 2), HdfsCall.hdfsCloseFile (some 1) (some 2)]
          ++ HdfsCall.hdfsDisconnect (some 1) :: []
    ∧ HdfsCall.hdfsFlush sample.opened._hdfs_fs (some 2)
        ∈ [HdfsCall.hdfsFlush (some 1) (some 2), HdfsCall.hdfsCloseFile (some 1) (some 2)]
    ∧ sample.env_ok.hdfsFlush sample.opened._hdfs_fs (some 2) ≠ -1 :=
  ⟨rfl, by decide,
    close_flushes_before_release sample.env_ok sample.opened 2 rfl
      [HdfsCall.hdfsFlush (some 1) (some 2), HdfsCall.hdfsCloseFile (some 1) (some 2)] []
      (HdfsCall.hdfsDisconnect (some 1)) (by decide) (Or.inr rfl)⟩

end HDFSWriter

/-! ## Lemmas on `open`: one equation for each path through the function -/

namespace Status

@[simp]
theorem ok_OK : Status.OK.ok = true := rfl

@[simp]
theorem ok_InternalError (m : std_string) : (Status.InternalError m).ok = false := rfl

@[simp]
theorem ok_AlreadyExist (m : std_string) : (Status.AlreadyExist m).ok = false := rfl

@[simp]
theorem code_InternalError (m : std_string) :
    (Status.InternalError m).code = ErrorCode.INTERNAL_ERROR := rfl

@[simp]
theorem code_AlreadyExist (m : std_string) :
    (Status.AlreadyExist m).code = ErrorCode.ALREADY_EXIST := rfl

@[simp]
theorem code_OK : Status.OK.code = ErrorCode.OK := rfl

/-- A status that is not `ok` does not carry the code `OK`. -/
theorem code_ne_OK_of_not_ok {s : Status} (h : s.ok = false) : s.code ≠ ErrorCode.OK := by
  simpa [Status.ok] using h

end Status

namespace HDFSWriter

theorem _connect_builder_fails (env : HdfsEnv) (w : HDFSWriter)
    (hb : (env.createHDFSBuilder w._properties).ok = false) :
    _connect env w = ⟨env.createHDFSBuilder w._properties, w, []⟩ := by
  simp [_connect, hb]

theorem _connect_null (env : HdfsEnv) (w : HDFSWriter)
    (hb : (env.createHDFSBuilder w._properties).ok = true)
    (hc : env.hdfsBuilderConnect w._properties = none) :
    _connect env w = ⟨Status.InternalError (connect_failed_msg env w),
      { w with _hdfs_fs := none }, [HdfsCall.hdfsBuilderConnect w._properties]⟩ := by
  simp [_connect, hb, hc, connect_failed_msg]

theorem _connect_some (env : HdfsEnv) (w : HDFSWriter) (fs : Nat)
    (hb : (env.createHDFSBuilder w._properties).ok = true)
    (hc : env.hdfsBuilderConnect w._properties = some fs) :
    _connect env w = ⟨Status.OK, { w with _hdfs_fs := some fs },
      [HdfsCall.hdfsBuilderConnect w._properties]⟩ := by
  simp [_connect, hb, hc]

theorem open_empty_namenode (env : HdfsEnv) (w : HDFSWriter) (hn : w._namenode = []) :
    «open» env w = ⟨Status.InternalError "hdfs properties is incorrect".toList, w, []⟩ := by
  simp [«open», hn]

theorem open_builder_fails (env : HdfsEnv) (w : HDFSWriter) (hn : w._namenode ≠ [])
    (hb : (env.createHDFSBuilder w._properties).ok = false) :
    «open» env w = ⟨env.createHDFSBuilder w._properties, rewritten w, []⟩ := by
  have h := _connect_builder_fails env (rewritten w) hb
  simp only [rewritten] at h
  simp [«open», hn, h, hb, rewritten]

theorem open_connect_fails (env : HdfsEnv) (w : HDFSWriter) (hn : w._namenode ≠ [])
    (hb : (env.createHDFSBuilder w._properties).ok = true)
    (hc : env.hdfsBuilderConnect w._properties = none) :
    «open» env w = ⟨Status.InternalError (connect_failed_msg env w),
      { rewritten w with _hdfs_fs := none }, [HdfsCall.hdfsBuilderConnect w._properties]⟩ := by
  have h := _connect_null env (rewritten w) hb hc
  simp only [rewritten] at h
  simp [«open», hn, h, rewritten, connect_failed_msg]

theorem open_target_exists (env : HdfsEnv) (w : HDFSWriter) (fs : Nat) (hn : w._namenode ≠ [])
    (hb : (env.createHDFSBuilder w._properties).ok = true)
    (hc : env.hdfsBuilderConnect w._properties = some fs)
    (hex : env.hdfsExists (some fs) (rewrite_path w._namenode w._path) = 0) :
    «open» env w = ⟨Status.AlreadyExist (rewrite_path w._namenode w._path
        ++ " already exists.".toList),
      { rewritten w with _hdfs_fs := some fs },
      [HdfsCall.hdfsBuilderConnect w._properties,
        HdfsCall.hdfsExists (some fs) (rewrite_path w._namenode w._path)]⟩ := by
  have h := _connect_some env (rewritten w) fs hb hc
  simp only [rewritten] at h
  simp [«open», hn, h, rewritten, hex]

theorem open_create_dir_fails (env : HdfsEnv) (w : HDFSWriter) (fs : Nat)
    (hn : w._namenode ≠ [])
    (hb : (env.createHDFSBuilder w._properties).ok = true)
    (hc : env.hdfsBuilderConnect w._properties = some fs)
    (hex : env.hdfsExists (some fs) (rewrite_path w._namenode w._path) ≠ 0)
    (hdir : env.hdfsExists (some fs) (env.parent_path (rewrite_path w._namenode w._path)) ≠ 0)
    (hmk : env.hdfsCreateDirectory (some fs)
      (env.parent_path (rewrite_path w._namenode w._path)) ≠ 0) :
    «open» env w = ⟨Status.InternalError (create_dir_failed_msg env w),
      { rewritten w with _hdfs_fs := some fs },
      [HdfsCall.hdfsBuilderConnect w._properties,
        HdfsCall.hdfsExists (some fs) (rewrite_path w._namenode w._path),
        HdfsCall.hdfsExists (some fs) (env.parent_path (rewrite_path w._namenode w._path)),
        HdfsCall.hdfsCreateDirectory (some fs)
          (env.parent_path (rewrite_path w._namenode w._path))]⟩ := by
  have h := _connect_some env (rewritten w) fs hb hc
  simp only [rewritten] at h
  simp [«open», hn, h, rewritten, hex, hdir, hmk, create_dir_failed_msg]

/-- The status of `open_file` is OK or an InternalError. -/
theorem open_file_code (env : HdfsEnv) (w : HDFSWriter) (calls : List HdfsCall) :
    (open_file env w calls).status.code = ErrorCode.OK
      ∨ (open_file env w calls).status.code = ErrorCode.INTERNAL_ERROR := by
  unfold open_file
  by_cases h : env.hdfsOpenFile w._hdfs_fs w._path = none
  · simp [h]
  · simp [h]

/-- When the target does not exist, `open` does not return AlreadyExist. -/
theorem open_target_absent (env : HdfsEnv) (w : HDFSWriter) (fs : Nat) (hn : w._namenode ≠ [])
    (hb : (env.createHDFSBuilder w._properties).ok = true)
    (hc : env.hdfsBuilderConnect w._properties = some fs)
    (hex : env.hdfsExists (some fs) (rewrite_path w._namenode w._path) ≠ 0) :
    («open» env w).status.code = ErrorCode.OK
      ∨ («open» env w).status.code = ErrorCode.INTERNAL_ERROR := by
  have h := _connect_some env (rewritten w) fs hb hc
  simp only [rewritten] at h
  simp only [«open», hn, h, if_false]
  simp only [Status.ok_OK, Bool.true_eq_false, if_false, hex]
  split_ifs <;> first | exact open_file_code _ _ _ | simp_all

end HDFSWriter

/-! ## Claims on `HDFSWriter::open` -/

namespace HDFSWriter

/-- C4, as the code has it: with a non-empty namenode and a builder that is made, a failed
connection is reported as InternalError with the message `connect to hdfs failed. ...`, a
failed directory creation as InternalError with the message `create dir failed. ...`, and an
existing target as AlreadyExist, a kind other than InternalError.  The two transport
failures share one error kind and differ in the message only. -/
theorem open_error_kinds (env : HdfsEnv) (w : HDFSWriter) (hn : w._namenode ≠ [])
    (hb : (env.createHDFSBuilder w._properties).ok = true) :
    (env.hdfsBuilderConnect w._properties = none →
        («open» env w).status = Status.InternalError (connect_failed_msg env w))
    ∧ (∀ fs : Nat, env.hdfsBuilderConnect w._properties = some fs →
        env.hdfsExists (some fs) (rewrite_path w._namenode w._path) ≠ 0 →
        env.hdfsExists (some fs) (env.parent_path (rewrite_path w._namenode w._path)) ≠ 0 →
        env.hdfsCreateDirectory (some fs)
          (env.parent_path (rewrite_path w._namenode w._path)) ≠ 0 →
        («open» env w).status = Status.InternalError (create_dir_failed_msg env w))
    ∧ (∀ fs : Nat, env.hdfsBuilderConnect w._properties = some fs →
        env.hdfsExists (some fs) (rewrite_path w._namenode w._path) = 0 →
        («open» env w).status = Status.AlreadyExist (rewrite_path w._namenode w._path
          ++ " already exists.".toList))
    ∧ ErrorCode.ALREADY_EXIST ≠ ErrorCode.INTERNAL_ERROR := by
  refine ⟨fun hc => ?_, fun fs hc hex hdir hmk => ?_, fun fs hc hex => ?_, by decide⟩
  · rw [open_connect_fails env w hn hb hc]
  · rw [open_create_dir_fails env w fs hn hb hc hex hdir hmk]
  · rw [open_target_exists env w fs hn hb hc hex]

/-- C4, at a fresh writer: the connection failure of `env_connect_fails`, the directory
failure of `env_mkdir_fails` and the existing target of `env_exists` give the statuses
named above. -/
theorem open_error_kinds_witness :
    (sample.fresh._namenode ≠ []
      ∧ (sample.env_connect_fails.createHDFSBuilder sample.fresh._properties).ok = true
      ∧ (sample.env_mkdir_fails.createHDFSBuilder sample.fresh._properties).ok = true
      ∧ (sample.env_exists.createHDFSBuilder sample.fresh._properties).ok = true)
    ∧ («open» sample.env_connect_fails sample.fresh).status.code = ErrorCode.INTERNAL_ERROR
    ∧ («open» sample.env_mkdir_fails sample.fresh).status
        = Status.InternalError (create_dir_failed_msg sample.env_mkdir_fails sample.fresh)
    ∧ («open» sample.env_exists sample.fresh).status.code = ErrorCode.ALREADY_EXIST :=
  ⟨⟨by decide, rfl, rfl, rfl⟩,
    by rw [(open_error_kinds sample.env_connect_fails sample.fresh (by decide) rfl).1 rfl]; rfl,
    (open_error_kinds sample.env_mkdir_fails sample.fresh (by decide) rfl).2.1 1 rfl
      (by decide) (by decide) (by decide),
    by rw [(open_error_kinds sample.env_exists sample.fresh (by decide) rfl).2.2.1 1 rfl rfl]
       rfl⟩

/-- C4 as stated fails: a failed connection and a failed directory creation are two causes
with the same error kind.  On `env_connect_fails` the connection fails, on `env_mkdir_fails`
the connection is made and `hdfsCreateDirectory` is called and fails, and `open` returns the
code `INTERNAL_ERROR` both times. -/
theorem open_error_kinds_not_distinct :
    sample.env_connect_fails.hdfsBuilderConnect sample.fresh._properties = none
    ∧ HdfsCall.hdfsCreateDirectory (some 1) "/out".toList
        ∈ («open» sample.env_mkdir_fails sample.fresh).calls
    ∧ sample.env_mkdir_fails.hdfsCreateDirectory (some 1) "/out".toList ≠ 0
    ∧ («open» sample.env_connect_fails sample.fresh).status.code
        = («open» sample.env_mkdir_fails sample.fresh).status.code
    ∧ («open» sample.env_connect_fails sample.fresh).status.code = ErrorCode.INTERNAL_ERROR := by
  decide

end HDFSWriter

/-! ## Claims on `HDFSWriter::write` -/

namespace HDFSWriter

/-- C8: `write` surfaces an I/O failure and does not retry.  With `buf_len > 0` the calls of
`write` are exactly one `hdfsWrite`; `write` returns an error iff that call returned a
negative result, and otherwise returns OK with `*written_len` equal to the returned byte
count.  With `buf_len = 0` it returns OK with `*written_len = 0` and calls nothing. -/
theorem write_no_retry (env : HdfsEnv) (w : HDFSWriter) (buf : List Nat)
    (buf_len written_len : Nat) :
    (0 < buf_len →
        (write env w buf buf_len written_len).calls
            = [HdfsCall.hdfsWrite w._hdfs_fs w._hdfs_file buf (to_tSize buf_len)]
          ∧ ((write env w buf buf_len written_len).calls.filter HdfsCall.isWrite).length = 1
          ∧ ((write env w buf buf_len written_len).status.ok = false
              ↔ (env.hdfsWrite w._hdfs_fs w._hdfs_file buf (to_tSize buf_len)).val < 0)
          ∧ (¬ (env.hdfsWrite w._hdfs_fs w._hdfs_file buf (to_tSize buf_len)).val < 0 →
              (write env w buf buf_len written_len).status = Status.OK
                ∧ ((write env w buf buf_len written_len).written_len : Int)
                    = (env.hdfsWrite w._hdfs_fs w._hdfs_file buf (to_tSize buf_len)).val))
    ∧ (buf_len = 0 →
        (write env w buf buf_len written_len).status = Status.OK
          ∧ (write env w buf buf_len written_len).written_len = 0
          ∧ (write env w buf buf_len written_len).calls = []) := by
  constructor
  · intro hpos
    have hne : buf_len ≠ 0 := Nat.pos_iff_ne_zero.mp hpos
    by_cases hr : (env.hdfsWrite w._hdfs_fs w._hdfs_file buf (to_tSize buf_len)).val < 0
    · simp [write, hne, hr, HdfsCall.isWrite]
    · have h0 : 0 ≤ (env.hdfsWrite w._hdfs_fs w._hdfs_file buf (to_tSize buf_len)).val :=
        not_lt.mp hr
      have hhi := (env.hdfsWrite w._hdfs_fs w._hdfs_file buf (to_tSize buf_len)).hi
      have hcast : ((to_unsigned_int
          (env.hdfsWrite w._hdfs_fs w._hdfs_file buf (to_tSize buf_len)) : Nat) : Int)
          = (env.hdfsWrite w._hdfs_fs w._hdfs_file buf (to_tSize buf_len)).val := by
        unfold to_unsigned_int
        rw [Int.toNat_of_nonneg (Int.emod_nonneg _ (by decide))]
        exact Int.emod_eq_of_lt h0 (by omega)
      simp [write, hne, hr, HdfsCall.isWrite, hcast]
  · intro h0
    simp [write, h0]

/-- C8, on concrete calls: a write of three bytes on `env_ok` makes one client call and
returns OK with `*written_len = 3`; on `env_write_fails` it makes one client call and
returns an error; a write of no byte makes no call. -/
theorem write_no_retry_witness :
    (write sample.env_ok sample.opened [104, 105, 10] 3 0).calls.length = 1
    ∧ (write sample.env_ok sample.opened [104, 105, 10] 3 0).status = Status.OK
    ∧ ((write sample.env_ok sample.opened [104, 105, 10] 3 0).written_len : Int) = 3
    ∧ (write sample.env_write_fails sample.opened [104, 105, 10] 3 0).status.ok = false
    ∧ (write sample.env_write_fails sample.opened [104, 105, 10] 3 0).calls.length = 1
    ∧ (write sample.env_ok sample.opened [] 0 7).calls = [] :=
  have h := (write_no_retry sample.env_ok sample.opened [104, 105, 10] 3 0).1 (by decide)
  have hf := (write_no_retry sample.env_write_fails sample.opened [104, 105, 10] 3 0).1
    (by decide)
  ⟨by rw [h.1]; rfl, (h.2.2.2 (by decide)).1, by rw [(h.2.2.2 (by decide)).2]; decide,
    hf.2.2.1.2 (by decide), by rw [hf.1]; rfl,
    ((write_no_retry sample.env_ok sample.opened [] 0 7).2 rfl).2.2⟩

end HDFSWriter

/-! ## The path rewrite of `open` -/

/-- A pattern found at the head of the text is found at the starting index. -/
theorem find_from_of_isPrefixOf (pat s : std_string) (pos : Nat)
    (h : pat.isPrefixOf s = true) : find_from pat s pos = some pos := by
  cases s with
  | nil =>
    cases pat with
    | nil => simp [find_from]
    | cons a t => simp [List.isPrefixOf] at h
  | cons c cs => simp [find_from, h]

/-- A pattern that is found is no longer than the text: `substr(pat.size())` is in range. -/
theorem find_from_le_size (pat : std_string) :
    ∀ (s : std_string) (pos i : Nat), find_from pat s pos = some i → pat.length ≤ s.length := by
  intro s
  induction s with
  | nil =>
    intro pos i h
    by_cases hp : pat = []
    · simp [hp]
    · simp [find_from, hp] at h
  | cons c cs ih =>
    intro pos i h
    by_cases hp : pat.isPrefixOf (c :: cs) = true
    · exact (List.isPrefixOf_iff_prefix.mp hp).length_le
    · simp only [find_from, hp] at h
      exact Nat.le_succ_of_le (ih (pos + 1) i (by simpa using h))

/-- Whenever `open` rewrites the path, `_namenode.size() <= _path.size()`: the call
`_path.substr(_namenode.size())` does not throw. -/
theorem find_le_size (s pat : std_string) (h : find s pat ≠ none) : pat.length ≤ s.length := by
  cases hf : find s pat with
  | none => exact absurd hf h
  | some i => exact find_from_le_size pat s 0 i hf

/-- A path that starts with the namenode loses it: `hdfs://ip:port/path` becomes `/path`. -/
theorem rewrite_path_of_leading (n rest : std_string) :
    HDFSWriter.rewrite_path n (n ++ rest) = rest := by
  have hp : n.isPrefixOf (n ++ rest) = true :=
    List.isPrefixOf_iff_prefix.mpr (List.prefix_append n rest)
  simp [HDFSWriter.rewrite_path, find, find_from_of_isPrefixOf n (n ++ rest) 0 hp, substr]

/-- A path in which the namenode does not occur is left as it is. -/
theorem rewrite_path_of_absent (n p : std_string) (h : find p n = none) :
    HDFSWriter.rewrite_path n p = p := by
  simp [HDFSWriter.rewrite_path, h]

namespace HDFSWriter

/-- C9 at a failing input: for the namenode `hdfs://nn:8020` and the path
`/backup/hdfs://nn:8020/f`, which holds the namenode but does not start with it, `open`
goes on with the path `/nn:8020/f`: the first 14 characters of the path are cut off, where
the claim has the path unchanged. -/
theorem open_rewrites_path_not_leading :
    sample.nested._namenode = "hdfs://nn:8020".toList
    ∧ sample.nested._path = "/backup/hdfs://nn:8020/f".toList
    ∧ ¬ (sample.nested._namenode <+: sample.nested._path)
    ∧ rewrite_path sample.nested._namenode sample.nested._path = "/nn:8020/f".toList
    ∧ («open» sample.env_ok sample.nested).writer._path = "/nn:8020/f".toList
    ∧ («open» sample.env_ok sample.nested).writer._path ≠ sample.nested._path := by
  decide

/-- The `hdfsDisconnect` calls of a run of one or more `close()` calls on an open writer that
holds a connection: one, unless a file is open and its flush fails in the first call; then
none, in the whole run. -/
theorem close_seq_disconnects (env : HdfsEnv) (envs : List HdfsEnv) (w : HDFSWriter) (fs : Nat)
    (hc : w._closed = false) (hfs : w._hdfs_fs = some fs) :
    disconnects (close_seq (env :: envs) w).2.2
      = if w._hdfs_file ≠ none ∧ env.hdfsFlush (some fs) w._hdfs_file = -1 then 0 else 1 := by
  have hrest := close_seq_of_closed envs (close env w).writer (close_sets_closed env w)
  simp only [close_seq, hrest, List.append_nil]
  unfold close
  by_cases hfile : w._hdfs_file = none
  · simp [hc, hfs, hfile, disconnects, HdfsCall.isDisconnect]
  · by_cases hr : env.hdfsFlush (some fs) w._hdfs_file = -1
    · simp [hc, hfs, hfile, hr, disconnects, HdfsCall.isDisconnect]
    · simp [hc, hfs, hfile, hr, disconnects, HdfsCall.isDisconnect]

/-- C10 at a failing input: a writer opened on a client whose flush fails holds the
connection `1`; its first `close()` returns an error, the second (the one of the
destructor) and the third return OK, and no call of the run is `hdfsDisconnect`: the
connection is never released, and the object still holds the handle. -/
theorem close_flush_failure_never_disconnects :
    («open» sample.env_flush_fails sample.fresh).status = Status.OK
    ∧ («open» sample.env_flush_fails sample.fresh).writer._hdfs_fs = some 1
    ∧ («open» sample.env_flush_fails sample.fresh).writer._closed = false
    ∧ (close_seq [sample.env_flush_fails, sample.env_flush_fails, sample.env_ok]
          («open» sample.env_flush_fails sample.fresh).writer).1.map Status.code
        = [ErrorCode.INTERNAL_ERROR, ErrorCode.OK, ErrorCode.OK]
    ∧ (close_seq [sample.env_flush_fails, sample.env_flush_fails, sample.env_ok]
          («open» sample.env_flush_fails sample.fresh).writer).2.2
        = [HdfsCall.hdfsFlush (some 1) (some 2)]
    ∧ disconnects (close_seq [sample.env_flush_fails, sample.env_flush_fails, sample.env_ok]
          («open» sample.env_flush_fails sample.fresh).writer).2.2 = 0
    ∧ (close_seq [sample.env_flush_fails, sample.env_flush_fails, sample.env_ok]
          («open» sample.env_flush_fails sample.fresh).writer).2.1._hdfs_fs = some 1 := by
  decide

end HDFSWriter

/-! ## Claims on `PrimaryKeyBloomFilterIndexWriterImpl::add_nulls` -/

namespace segment_v2

namespace PrimaryKeyBloomFilterIndexWriterImpl

/-- C5 as stated fails: `add_nulls` reports no InvalidState.  On the writer `bf_finished`,
whose blocks are all materialized, `add_nulls(5)` returns normally and changes the state
(`_has_null` becomes true); and on no state at all does a call report InvalidState. -/
theorem add_nulls_reports_no_invalid_state :
    add_nulls_call sample.bf_finished 5 = Except.ok (add_nulls sample.bf_finished 5)
    ∧ add_nulls_call sample.bf_finished 5 ≠ Except.error WriterError.InvalidState
    ∧ add_nulls sample.bf_finished 5 ≠ sample.bf_finished
    ∧ ¬ ∃ (w : PrimaryKeyBloomFilterIndexWriterImpl) (count : Nat),
        add_nulls_call w count = Except.error WriterError.InvalidState := by
  refine ⟨rfl, by simp [add_nulls_call], ?_, ?_⟩
  · intro h
    have h2 := congrArg PrimaryKeyBloomFilterIndexWriterImpl._has_null h
    simp [add_nulls, sample.bf_finished] at h2
  · rintro ⟨w, count, h⟩
    simp [add_nulls_call] at h

/-- C5, as the code has it: the writer keeps no closed flag and `add_nulls` returns `void`.
For every writer state, one reached after `finish` included, and every count,
`add_nulls(count)` completes without an error and sets `_has_null`, leaving every other
member as it was. -/
theorem add_nulls_never_fails (w : PrimaryKeyBloomFilterIndexWriterImpl) (count : Nat) :
    add_nulls_call w count
      = Except.ok { _bf_options := w._bf_options, _type_info := w._type_info,
                    _pool := w._pool, _has_null := true,
                    _bf_buffer_size := w._bf_buffer_size, _values := w._values,
                    _bfs := w._bfs } := by
  simp [add_nulls_call, add_nulls]

/-- C6 as stated fails: with `rows_per_block = 5`, `add_nulls(5)` on a writer as constructed
(no row seen in the block, so `0 + 5 >= rows_per_block`) materializes nothing: the number of
completed filter blocks stays `0`. -/
theorem add_nulls_materializes_no_block :
    sample.bf_fresh._bf_options.rows_per_block ≤ 0 + 5
    ∧ completed_blocks sample.bf_fresh = 0
    ∧ completed_blocks (add_nulls sample.bf_fresh 5) = 0
    ∧ ¬ (completed_blocks sample.bf_fresh + 1 ≤ completed_blocks (add_nulls sample.bf_fresh 5)) := by
  refine ⟨?_, rfl, rfl, ?_⟩
  · simp [sample.bf_fresh, new, sample.bf_options]
  · simp [completed_blocks, add_nulls, sample.bf_fresh, new]

/-- C6, as the code has it: `add_nulls(count)` advances no row counter and checks no
fullness.  For every writer state and every count, whatever `rows_per_block` is, the
completed filter blocks, the buffered values and the buffer size are unchanged: the number
of completed filter blocks does not grow. -/
theorem add_nulls_keeps_blocks (w : PrimaryKeyBloomFilterIndexWriterImpl) (count : Nat) :
    (add_nulls w count)._bfs = w._bfs
    ∧ completed_blocks (add_nulls w count) = completed_blocks w
    ∧ (add_nulls w count)._values = w._values
    ∧ (add_nulls w count)._bf_buffer_size = w._bf_buffer_size
    ∧ (add_nulls w count)._bf_options = w._bf_options :=
  ⟨rfl, rfl, rfl, rfl, rfl⟩

/-- C7: null ingestion records presence only.  For every writer state and all counts
`c1, c2 >= 1`, `add_nulls(c1)` and `add_nulls(c2)` give the same state, in which
`_has_null` is true; and a further `add_nulls`, of any count, leaves that state as it is. -/
theorem add_nulls_presence_only (w : PrimaryKeyBloomFilterIndexWriterImpl) (c1 c2 : Nat)
    (h1 : 1 ≤ c1) (h2 : 1 ≤ c2) :
    add_nulls w c1 = add_nulls w c2
    ∧ (add_nulls w c1)._has_null = true
    ∧ ∀ c3 : Nat, add_nulls (add_nulls w c1) c3 = add_nulls w c1 :=
  have _ := h1
  have _ := h2
  ⟨rfl, rfl, fun _ => rfl⟩

/-- C7, on a writer as constructed: one null and a thousand nulls give the same state, with
`_has_null` set, and that state differs from the one before. -/
theorem add_nulls_presence_only_witness :
    (1 ≤ 1 ∧ 1 ≤ 1000)
    ∧ (add_nulls sample.bf_fresh 1 = add_nulls sample.bf_fresh 1000
        ∧ (add_nulls sample.bf_fresh 1)._has_null = true
        ∧ ∀ c3 : Nat, add_nulls (add_nulls sample.bf_fresh 1) c3 = add_nulls sample.bf_fresh 1)
    ∧ sample.bf_fresh._has_null = false :=
  ⟨⟨by decide, by decide⟩,
    add_nulls_presence_only sample.bf_fresh 1 1000 (by decide) (by decide), rfl⟩

end PrimaryKeyBloomFilterIndexWriterImpl

end segment_v2

end doris
